import Mathlib

/-!
Verification of the login-app identity store and auth service
(`login-app/internal/storage/user.go`, `login-app/internal/auth/service.go`).

The Go maps (`map[string]*User`, `map[string]string`) are embedded as
association lists with last-write-wins insert; `time.Now()` becomes an
explicit `now : Nat` argument; operations that mutate the receiver return
the post-call store alongside the result, so that partial mutation before
an error return is observable in the model exactly as in the code.
-/

namespace LoginApp

/-- Decidable equality on `Except`, so that concrete runs of the fallible
operations can be settled by `decide`. -/
instance {ε α : Type} [DecidableEq ε] [DecidableEq α] : DecidableEq (Except ε α) := fun x y =>
  match x, y with
  | .error a, .error b =>
    if h : a = b then isTrue (congrArg Except.error h)
    else isFalse (fun hc => h (Except.error.inj hc))
  | .error _, .ok _ => isFalse (fun hc => Except.noConfusion hc)
  | .ok _, .error _ => isFalse (fun hc => Except.noConfusion hc)
  | .ok a, .ok b =>
    if h : a = b then isTrue (congrArg Except.ok h)
    else isFalse (fun hc => h (Except.ok.inj hc))

/-- Lookup in an association-list map, as Go `v, ok := m[k]`. -/
def mapLookup {α : Type} (m : List (String × α)) (k : String) : Option α :=
  (m.find? (fun p => p.1 = k)).map (fun p => p.2)

/-- Removal, as Go `delete(m, k)`. -/
def mapErase {α : Type} (m : List (String × α)) (k : String) : List (String × α) :=
  m.filter (fun p => ¬ p.1 = k)

/-- Insert-or-overwrite, as Go `m[k] = v`. -/
def mapInsert {α : Type} (m : List (String × α)) (k : String) (v : α) : List (String × α) :=
  (k, v) :: mapErase m k

/-- The `storage.User` record (`user.go`). `time.Time` fields are `Nat`
instants; the Go zero value of `time.Time` is the instant `0`. -/
structure User where
  id : String
  email : String
  username : String
  passwordHash : String
  firstName : String
  lastName : String
  createdAt : Nat
  updatedAt : Nat
  isActive : Bool
deriving DecidableEq, Repr

/-- Error kinds surfaced by the core (`storage` and `auth` package error
values, collapsed by kind as in the error taxonomy). -/
inductive AppError where
  | userNotFound
  | userExists
  | invalidCredentials
  | invalidToken
  | tokenExpired
deriving DecidableEq, Repr

/-- The `storage.MemoryUserStore` state: primary record map plus the two
secondary indexes mapping email and username to the record identifier. -/
structure MemoryUserStore where
  users : List (String × User)
  emailIdx : List (String × String)
  usernameIdx : List (String × String)
deriving DecidableEq, Repr

/-- `storage.NewMemoryUserStore`. -/
def MemoryUserStore.empty : MemoryUserStore :=
  { users := [], emailIdx := [], usernameIdx := [] }

/-- `MemoryUserStore.CreateUser` (user.go lines 70-100): reject if the id,
email, or username is present; otherwise store a copy stamped with the
current time and `IsActive = true` and register both index entries. The
store after the call is returned alongside the result; all checks precede
any mutation, so a failing call returns the receiver unchanged. -/
def MemoryUserStore.createUser (s : MemoryUserStore) (user : User) (now : Nat) :
    Except AppError Unit × MemoryUserStore :=
  if (mapLookup s.users user.id).isSome then
    (.error .userExists, s)
  else if (mapLookup s.emailIdx user.email).isSome then
    (.error .userExists, s)
  else if (mapLookup s.usernameIdx user.username).isSome then
    (.error .userExists, s)
  else
    (.ok (),
      { s with
        users := mapInsert s.users user.id
          { user with createdAt := now, updatedAt := now, isActive := true },
        emailIdx := mapInsert s.emailIdx user.email user.id,
        usernameIdx := mapInsert s.usernameIdx user.username user.id })

/-- `MemoryUserStore.GetUserByID` (user.go lines 103-115). The Go code
returns a copy of the record; copies are value semantics here. -/
def MemoryUserStore.getUserByID (s : MemoryUserStore) (id : String) :
    Except AppError User :=
  match mapLookup s.users id with
  | none => .error .userNotFound
  | some user => .ok user

/-- `MemoryUserStore.GetUserByEmail` (user.go lines 118-130). On an index
hit the Go code dereferences `s.users[userID]` with no presence check; if
that entry is absent the dereference of the nil pointer panics, modelled
as the outer `none`. -/
def MemoryUserStore.getUserByEmail (s : MemoryUserStore) (email : String) :
    Option (Except AppError User) :=
  match mapLookup s.emailIdx email with
  | none => some (.error .userNotFound)
  | some userID =>
    match mapLookup s.users userID with
    | none => none
    | some user => some (.ok user)

/-- `MemoryUserStore.GetUserByUsername` (user.go lines 133-145), with the
same unchecked dereference as `getUserByEmail`. -/
def MemoryUserStore.getUserByUsername (s : MemoryUserStore) (username : String) :
    Option (Except AppError User) :=
  match mapLookup s.usernameIdx username with
  | none => some (.error .userNotFound)
  | some userID =>
    match mapLookup s.users userID with
    | none => none
    | some user => some (.ok user)

/-- Tail of `MemoryUserStore.UpdateUser` after the email branch (user.go
lines 167-182): username collision check and retarget, then replace the
record with a copy of the argument whose `UpdatedAt` is bumped. -/
def MemoryUserStore.updateUserFromUsername (s : MemoryUserStore) (existing user : User)
    (now : Nat) : Except AppError Unit × MemoryUserStore :=
  if user.username = existing.username then
    (.ok (), { s with users := mapInsert s.users user.id { user with updatedAt := now } })
  else if (mapLookup s.usernameIdx user.username).isSome then
    (.error .userExists, s)
  else
    let s2 := { s with
      usernameIdx := mapInsert (mapErase s.usernameIdx existing.username) user.username user.id }
    (.ok (), { s2 with users := mapInsert s2.users user.id { user with updatedAt := now } })

/-- `MemoryUserStore.UpdateUser` (user.go lines 148-183). The email index
is retargeted before the username collision check runs, so a username
collision error can leave the email index already mutated; the returned
store is the post-call state in every branch. -/
def MemoryUserStore.updateUser (s : MemoryUserStore) (user : User) (now : Nat) :
    Except AppError Unit × MemoryUserStore :=
  match mapLookup s.users user.id with
  | none => (.error .userNotFound, s)
  | some existing =>
    if user.email = existing.email then
      s.updateUserFromUsername existing user now
    else if (mapLookup s.emailIdx user.email).isSome then
      (.error .userExists, s)
    else
      let s2 := { s with
        emailIdx := mapInsert (mapErase s.emailIdx existing.email) user.email user.id }
      s2.updateUserFromUsername existing user now

/-- `MemoryUserStore.DeleteUser` (user.go lines 186-201): remove the record
and the index entries keyed by the stored email and username. -/
def MemoryUserStore.deleteUser (s : MemoryUserStore) (id : String) :
    Except AppError Unit × MemoryUserStore :=
  match mapLookup s.users id with
  | none => (.error .userNotFound, s)
  | some user =>
    (.ok (),
      { users := mapErase s.users id,
        emailIdx := mapErase s.emailIdx user.email,
        usernameIdx := mapErase s.usernameIdx user.username })

/-- The auth-related configuration (`config.AuthConfig` in the
`internal/config` package): the three fields the auth service reads — JWT
secret, token lifetime, bcrypt cost. The `SessionTimeout` field is never
read by the service and is omitted. -/
structure AuthConfig where
  jwtSecret : String
  tokenDuration : Nat
  bcryptCost : Nat
deriving DecidableEq, Repr

/-- `auth.RegisterRequest` (types file of the auth package). -/
structure RegisterRequest where
  email : String
  username : String
  password : String
  firstName : String
  lastName : String
deriving DecidableEq, Repr

/-- `auth.LoginRequest`. -/
structure LoginRequest where
  email : String
  password : String
deriving DecidableEq, Repr

/-- `auth.UserInfo`: the public user projection. It has no password field
by construction, matching the Go struct. -/
structure UserInfo where
  id : String
  email : String
  username : String
  firstName : String
  lastName : String
  createdAt : Nat
deriving DecidableEq, Repr

/-- The JWT claim set built by the service (`auth.JWTClaims` plus the
embedded registered claims). -/
structure JWTClaims where
  userID : String
  email : String
  username : String
  expiresAt : Nat
  issuedAt : Nat
  notBefore : Nat
  issuer : String
  subject : String
deriving DecidableEq, Repr

/-- Signing methods relevant to the service: the HMAC method it uses and a
non-HMAC method to express the algorithm check in the key function. -/
inductive SigningMethod where
  | hmac256
  | rsa256
deriving DecidableEq, Repr

/-- A serialized signed token: its claim set, its signing method, and the
key it was signed with (signature verification succeeds exactly when the
verifying key equals the signing key). -/
structure SignedToken where
  claims : JWTClaims
  method : SigningMethod
  signedWith : String
deriving DecidableEq, Repr

/-- Whether a method is in the HMAC family, as the type assertion
`token.Method.(*jwt.SigningMethodHMAC)` in the key function. -/
def SigningMethod.isHMAC : SigningMethod → Bool
  | .hmac256 => true
  | .rsa256 => false

/-- Modelled from the golang-jwt/jwt/v5 library (v5.2.0, pinned in go.mod):
`ParseWithClaims` rejects the token when the key function errors (here:
non-HMAC method, service.go lines 140-142) or the signature does not verify
under the returned key, and then — by default in v5 — validates the
registered time claims: a present expires-at must be strictly after the
current instant and a present not-before must not be after it. Any of
these failures makes `ParseWithClaims` return a non-nil error, modelled as
`none`; on `some claims` the token is valid and the claims type assertion
succeeds. -/
def parseWithClaims (tok : SignedToken) (secret : String) (now : Nat) :
    Option JWTClaims :=
  if ¬ tok.method.isHMAC then none
  else if ¬ tok.signedWith = secret then none
  else if ¬ now < tok.claims.expiresAt then none
  else if now < tok.claims.notBefore then none
  else some tok.claims

/-- Modelled from the golang.org/x/crypto/bcrypt contract:
`GenerateFromPassword` yields a digest that does not reveal the password
and that `CompareHashAndPassword` accepts exactly for the hashed password.
The cost parameter tunes work, not the verification relation, so the
digest model omits it. -/
def bcryptGenerateFromPassword (password : String) (_cost : Nat) : String :=
  "bcrypt-digest$" ++ password

/-- Modelled from the bcrypt contract: verification succeeds exactly when
the candidate password is the one the digest was generated from. -/
def bcryptCompareHashAndPassword (hash password : String) : Bool :=
  hash = bcryptGenerateFromPassword password 0

/-- `Service.hashPassword` (service.go lines 193-199). -/
def hashPassword (cfg : AuthConfig) (password : String) : String :=
  bcryptGenerateFromPassword password cfg.bcryptCost

/-- `Service.verifyPassword` (service.go lines 202-204), true on success. -/
def verifyPassword (hashedPassword password : String) : Bool :=
  bcryptCompareHashAndPassword hashedPassword password

/-- `Service.userToUserInfo` (service.go lines 242-251): the public-safe
projection, dropping the password hash and the mutable fields. -/
def userToUserInfo (user : User) : UserInfo :=
  { id := user.id
    email := user.email
    username := user.username
    firstName := user.firstName
    lastName := user.lastName
    createdAt := user.createdAt }

/-- `Service.generateToken` (service.go lines 207-230): claims carry the
user id, email and username, expiry `now` plus the configured duration,
issued-at and not-before `now`, the fixed issuer tag, and the id as
subject; the token is signed HS256 with the configured secret. HMAC
signing cannot fail, so the Go error path is vacuous. Returns the token
and the absolute expiry instant. -/
def generateToken (cfg : AuthConfig) (user : User) (now : Nat) :
    SignedToken × Nat :=
  let expiresAt := now + cfg.tokenDuration
  ({ claims :=
      { userID := user.id
        email := user.email
        username := user.username
        expiresAt := expiresAt
        issuedAt := now
        notBefore := now
        issuer := "login-app"
        subject := user.id }
     method := .hmac256
     signedWith := cfg.jwtSecret }, expiresAt)

/-- `auth.LoginResponse`: token, public user view, expiry instant. -/
structure LoginResponse where
  token : SignedToken
  user : UserInfo
  expiresAt : Nat
deriving DecidableEq, Repr

/-- `Service.Register` (service.go lines 52-99): advisory existence
pre-checks by email and username, password hashing, fresh id generation
(the random id and the clock are explicit arguments), store create, token
issuance. The response carries `userToUserInfo` of the LOCAL record, whose
timestamps were never stamped (Go zero time `0`); the store stamped only
its own private copy. The outer `none` propagates a store lookup panic. -/
def register (store : MemoryUserStore) (cfg : AuthConfig) (req : RegisterRequest)
    (genID : String) (now : Nat) :
    Option (Except AppError LoginResponse × MemoryUserStore) :=
  match store.getUserByEmail req.email with
  | none => none
  | some (.ok _) => some (.error .userExists, store)
  | some (.error _) =>
    match store.getUserByUsername req.username with
    | none => none
    | some (.ok _) => some (.error .userExists, store)
    | some (.error _) =>
      let hashedPassword := hashPassword cfg req.password
      let user : User :=
        { id := genID
          email := req.email
          username := req.username
          passwordHash := hashedPassword
          firstName := req.firstName
          lastName := req.lastName
          createdAt := 0
          updatedAt := 0
          isActive := false }
      match store.createUser user now with
      | (.error e, store2) => some (.error e, store2)
      | (.ok _, store2) =>
        let issued := generateToken cfg user now
        some (.ok
          { token := issued.1
            user := userToUserInfo user
            expiresAt := issued.2 }, store2)

/-- `Service.Login` (service.go lines 102-133): email lookup mapping
`NotFound` to `InvalidCredentials`, active check, bcrypt verification,
then token issuance. Read-only, so no store is returned; the outer `none`
propagates a store lookup panic. -/
def login (store : MemoryUserStore) (cfg : AuthConfig) (req : LoginRequest)
    (now : Nat) : Option (Except AppError LoginResponse) :=
  match store.getUserByEmail req.email with
  | none => none
  | some (.error e) =>
    if e = .userNotFound then some (.error .invalidCredentials)
    else some (.error e)
  | some (.ok user) =>
    if ¬ user.isActive then some (.error .invalidCredentials)
    else if ¬ verifyPassword user.passwordHash req.password then
      some (.error .invalidCredentials)
    else
      let issued := generateToken cfg user now
      some (.ok
        { token := issued.1
          user := userToUserInfo user
          expiresAt := issued.2 })

/-- `Service.ValidateToken` (service.go lines 136-176): any parse error —
including the v5 parse-time rejection of an expired token — becomes
`InvalidToken`; the explicit expiry re-check then maps an expired claim to
`TokenExpired`; the subject is re-fetched from the store and a missing or
inactive user yields `InvalidToken`; otherwise the public view of the
fetched user is returned. -/
def validateToken (store : MemoryUserStore) (cfg : AuthConfig)
    (tok : SignedToken) (now : Nat) : Except AppError UserInfo :=
  match parseWithClaims tok cfg.jwtSecret now with
  | none => .error .invalidToken
  | some claims =>
    if claims.expiresAt < now then .error .tokenExpired
    else
      match store.getUserByID claims.userID with
      | .error e =>
        if e = .userNotFound then .error .invalidToken else .error e
      | .ok user =>
        if ¬ user.isActive then .error .invalidToken
        else .ok (userToUserInfo user)

/-! Concrete fixtures used by the closed theorems below. -/

/-- A first caller-supplied record (timestamps and active flag are what a
caller might pass; the store overrides them on create). -/
def userA : User :=
  { id := "a", email := "e1", username := "u1", passwordHash := "ph1"
    firstName := "Ann", lastName := "Ap", createdAt := 0, updatedAt := 0
    isActive := false }

/-- A second record with distinct id, email, and username. -/
def userB : User :=
  { id := "b", email := "e2", username := "u2", passwordHash := "ph2"
    firstName := "Bob", lastName := "Bp", createdAt := 0, updatedAt := 0
    isActive := false }

/-- The record the store holds for `userA` after `createUser` at time 1. -/
def storedA : User :=
  { userA with createdAt := 1, updatedAt := 1, isActive := true }

/-- Store holding `userA` (created at time 1). -/
def storeA : MemoryUserStore := (MemoryUserStore.empty.createUser userA 1).2

/-- Store holding `userA` and `userB` (created at times 1 and 2). -/
def storeAB : MemoryUserStore := (storeA.createUser userB 2).2

/-- Update request for `userA` that moves it to a fresh email but to the
username already held by `userB`. -/
def updateReqA : User := { userA with email := "e3", username := "u2" }

/-- Store state after the failing `updateUser storeAB updateReqA 3` call. -/
def storeAfterFailedUpdate : MemoryUserStore := (storeAB.updateUser updateReqA 3).2

/-- Store state after then deleting record `a`. -/
def storeAfterDelete : MemoryUserStore := (storeAfterFailedUpdate.deleteUser "a").2

/-- A demo configuration. -/
def cfgDemo : AuthConfig := { jwtSecret := "sec", tokenDuration := 10, bcryptCost := 4 }

/-- A demo registration request. -/
def regReqDemo : RegisterRequest :=
  { email := "a@x.com", username := "alice", password := "secret1"
    firstName := "A", lastName := "B" }

/-! Helper lemmas about the map embedding and the lookup operations. -/

theorem mapLookup_insert_self {α : Type} (m : List (String × α)) (k : String) (v : α) :
    mapLookup (mapInsert m k v) k = some v := by
  simp [mapLookup, mapInsert]

theorem getUserByEmail_notFound_iff (s : MemoryUserStore) (e : String) :
    s.getUserByEmail e = some (.error .userNotFound) ↔ mapLookup s.emailIdx e = none := by
  unfold MemoryUserStore.getUserByEmail
  cases h : mapLookup s.emailIdx e with
  | none => simp
  | some uid => cases h2 : mapLookup s.users uid <;> simp [h2]

theorem getUserByUsername_notFound_iff (s : MemoryUserStore) (n : String) :
    s.getUserByUsername n = some (.error .userNotFound) ↔ mapLookup s.usernameIdx n = none := by
  unfold MemoryUserStore.getUserByUsername
  cases h : mapLookup s.usernameIdx n with
  | none => simp
  | some uid => cases h2 : mapLookup s.users uid <;> simp [h2]

/-- Claim C1: an `updateUser` call that fails with `AlreadyExists` is
required to leave the record map and both indexes untouched; but on a
store holding records `a` (email e1, username u1) and `b` (email e2,
username u2), updating `a` to the fresh email e3 and the colliding
username u2 returns `AlreadyExists` while the email index has already been
retargeted (e1 removed, e3 inserted) with the stored record and the
username index unchanged — exactly the partial state the claim rules
out. -/
theorem failed_update_leaves_partial_email_index :
    (storeAB.updateUser updateReqA 3).1 = .error .userExists
    ∧ mapLookup storeAB.emailIdx "e1" = some "a"
    ∧ mapLookup storeAB.emailIdx "e3" = none
    ∧ mapLookup storeAfterFailedUpdate.emailIdx "e3" = some "a"
    ∧ mapLookup storeAfterFailedUpdate.emailIdx "e1" = none
    ∧ mapLookup storeAfterFailedUpdate.users "a" = mapLookup storeAB.users "a"
    ∧ mapLookup storeAfterFailedUpdate.usernameIdx "u1" = some "a" := by
  decide

/-- A token for subject `a` with a valid HS256 signature under the demo
secret whose expiry claim (instant 5) is already past at validation time
10. -/
def expiredTok : SignedToken :=
  { claims :=
      { userID := "a", email := "e1", username := "u1", expiresAt := 5
        issuedAt := 0, notBefore := 0, issuer := "login-app", subject := "a" }
    method := .hmac256
    signedWith := "sec" }

/-- Claim C2: a token whose signature is valid under the configured secret
and HMAC algorithm but whose expiry is past must fail with `TokenExpired`;
the code returns `InvalidToken` instead, because the v5 JWT library
already rejects the expired token during parsing and every parse error is
mapped to `InvalidToken`, leaving the dedicated expiry check dead. The
subject is present and active in the store, so no user check interferes. -/
theorem expired_token_gives_invalid_token :
    expiredTok.method = .hmac256
    ∧ expiredTok.signedWith = cfgDemo.jwtSecret
    ∧ expiredTok.claims.expiresAt < 10
    ∧ mapLookup storeA.users "a" = some storedA
    ∧ storedA.isActive = true
    ∧ validateToken storeA cfgDemo expiredTok 10 = .error .invalidToken
    ∧ ¬ validateToken storeA cfgDemo expiredTok 10 = .error .tokenExpired := by
  decide

/-- Claim C3, counterexample: registering on an empty store at time 5
succeeds, the store record for the new identifier carries the stamped
created timestamp 5, but the returned public view carries the zero
created timestamp 0 of the local, never-restamped record — so the view
does not agree with the stored record on the created-timestamp field. -/
theorem register_view_created_at_mismatch :
    ((register MemoryUserStore.empty cfgDemo regReqDemo "id1" 5).map
      (fun r => (r.1.map (fun resp => resp.user.createdAt),
        (mapLookup r.2.users "id1").map (fun u => u.createdAt))))
      = some (.ok 0, some 5)
    ∧ (0 : Nat) ≠ 5 := by
  decide

/-- Claim C9, counterexample: record `a` is created at time 1 (stored
created timestamp 1); an update at time 7 passing created timestamp 99
succeeds and the store now holds created timestamp 99 — `updateUser`
stores the caller-supplied created timestamp instead of preserving the
stored one. -/
theorem update_overwrites_created_at :
    (mapLookup storeA.users "a").map (fun u => u.createdAt) = some 1
    ∧ (storeA.updateUser { storedA with createdAt := 99 } 7).1 = .ok ()
    ∧ (mapLookup ((storeA.updateUser { storedA with createdAt := 99 } 7).2).users "a").map
        (fun u => u.createdAt) = some 99
    ∧ (99 : Nat) ≠ 1 := by
  decide

/-- Claim C10: after the failing update of C1 (which leaves the email
index pointing e3 to record `a` while the record still stores e1),
deleting `a` removes the record and the entries under its STORED keys, so
the e3 entry survives pointing at a deleted identifier; `getUserByEmail`
then dereferences the missing record (the Go code panics on the nil
pointer, the model returns the panic marker `none`) — refuting the claimed
reachable-state invariant. -/
theorem dangling_index_after_failed_update_then_delete :
    (storeAfterFailedUpdate.deleteUser "a").1 = .ok ()
    ∧ mapLookup storeAfterDelete.emailIdx "e3" = some "a"
    ∧ mapLookup storeAfterDelete.users "a" = none
    ∧ storeAfterDelete.getUserByEmail "e3" = none := by
  decide

/-- Claim C4: `createUser` fails with `AlreadyExists` whenever the
identifier, the email, or the username is already present, returning the
store unchanged (all checks run before any mutation); on fresh identifier,
email, and username it succeeds, stores the record with both timestamps
stamped to the current time and the active flag forced true, and registers
both secondary index entries. -/
theorem createUser_checks_then_writes (s : MemoryUserStore) (u : User) (now : Nat) :
    (((mapLookup s.users u.id).isSome ∨ (mapLookup s.emailIdx u.email).isSome ∨
        (mapLookup s.usernameIdx u.username).isSome) →
      s.createUser u now = (.error .userExists, s))
    ∧ (mapLookup s.users u.id = none → mapLookup s.emailIdx u.email = none →
        mapLookup s.usernameIdx u.username = none →
        (s.createUser u now).1 = .ok ()
        ∧ mapLookup (s.createUser u now).2.users u.id =
            some { u with createdAt := now, updatedAt := now, isActive := true }
        ∧ mapLookup (s.createUser u now).2.emailIdx u.email = some u.id
        ∧ mapLookup (s.createUser u now).2.usernameIdx u.username = some u.id) := by
  constructor
  · intro h
    unfold MemoryUserStore.createUser
    rcases h with h | h | h
    · simp [h]
    · by_cases h1 : (mapLookup s.users u.id).isSome <;> simp [h1, h]
    · by_cases h1 : (mapLookup s.users u.id).isSome <;>
        by_cases h2 : (mapLookup s.emailIdx u.email).isSome <;> simp [h1, h2, h]
  · intro h1 h2 h3
    unfold MemoryUserStore.createUser
    simp [h1, h2, h3, mapLookup_insert_self]

/-- Witness for C4: creating `userA` again on a store that already holds it
fails with `AlreadyExists` and returns the store unchanged, and creating it
on the empty store registers the stamped record. -/
theorem createUser_checks_then_writes_witness :
    storeAB.createUser userA 9 = (.error .userExists, storeAB)
    ∧ mapLookup (MemoryUserStore.empty.createUser userA 1).2.users userA.id =
        some { userA with createdAt := 1, updatedAt := 1, isActive := true } :=
  ⟨(createUser_checks_then_writes storeAB userA 9).1 (Or.inl (by decide)),
    ((createUser_checks_then_writes MemoryUserStore.empty userA 1).2
      (by decide) (by decide) (by decide)).2.1⟩

/-- Claim C5, counterexample: the claim ranges over every later state of a
created, never-modified record, but after the failing `updateUser` of the
C1 trace the record `a` is still stored unmodified (the call errored
before replacing it) with its email e1, yet lookup by that email fails
`NotFound` because the failed call already deleted the e1 index entry —
lookup by identifier and by username still succeed, so the three lookups
no longer all succeed with identical values. -/
theorem created_record_lookups_disagree_after_failed_update :
    (storeAB.updateUser updateReqA 3).1 = .error .userExists
    ∧ mapLookup storeAfterFailedUpdate.users "a" = some storedA
    ∧ storedA.email = "e1"
    ∧ storeAfterFailedUpdate.getUserByID "a" = .ok storedA
    ∧ storeAfterFailedUpdate.getUserByUsername "u1" = some (.ok storedA)
    ∧ storeAfterFailedUpdate.getUserByEmail "e1" = some (.error .userNotFound) := by
  decide

/-- Claim C5 as amended: in the state immediately following a successful
`createUser`, lookup by identifier, by email, and by username all succeed
and return the same record value. The Go code hands back a fresh copy on
every lookup; the embedding returns values, so a caller can never reach
store-internal state through a returned record. Agreement at later
observation points is not guaranteed: a subsequent failed update can
de-index the unmodified record (see the counterexample above). -/
theorem create_then_lookups_agree (s : MemoryUserStore) (u : User) (now : Nat)
    (s2 : MemoryUserStore) (h : s.createUser u now = (.ok (), s2)) :
    ∃ r, s2.getUserByID u.id = .ok r
      ∧ s2.getUserByEmail u.email = some (.ok r)
      ∧ s2.getUserByUsername u.username = some (.ok r) := by
  unfold MemoryUserStore.createUser at h
  split_ifs at h with h1 h2 h3
  · simp at h
  · simp at h
  · simp at h
  · injection h with hfst hsnd
    subst hsnd
    refine ⟨{ u with createdAt := now, updatedAt := now, isActive := true }, ?_, ?_, ?_⟩ <;>
      simp [MemoryUserStore.getUserByID, MemoryUserStore.getUserByEmail,
        MemoryUserStore.getUserByUsername, mapLookup_insert_self]

/-- Witness for C5, on the store holding `userA` created at time 1. -/
theorem create_then_lookups_agree_witness :
    ∃ r, storeA.getUserByID userA.id = .ok r
      ∧ storeA.getUserByEmail userA.email = some (.ok r)
      ∧ storeA.getUserByUsername userA.username = some (.ok r) :=
  create_then_lookups_agree MemoryUserStore.empty userA 1 storeA (by decide)

/-- Claim C6: a login whose email resolves to no record, a login against
an inactive record, and a login against an active record with a password
that fails bcrypt verification all return the identical error kind
`InvalidCredentials`. -/
theorem login_invalid_credentials_uniform (s : MemoryUserStore) (cfg : AuthConfig)
    (req : LoginRequest) (now : Nat) :
    (s.getUserByEmail req.email = some (.error .userNotFound) →
      login s cfg req now = some (.error .invalidCredentials))
    ∧ (∀ u, s.getUserByEmail req.email = some (.ok u) → u.isActive = false →
      login s cfg req now = some (.error .invalidCredentials))
    ∧ (∀ u, s.getUserByEmail req.email = some (.ok u) → u.isActive = true →
      verifyPassword u.passwordHash req.password = false →
      login s cfg req now = some (.error .invalidCredentials)) := by
  refine ⟨?_, ?_, ?_⟩
  · intro h
    unfold login
    simp [h]
  · intro u h hact
    unfold login
    simp [h, hact]
  · intro u h hact hpw
    unfold login
    simp [h, hact, hpw]

/-- Store in which record `a` has been deactivated by an update at time 4. -/
def inactiveStore : MemoryUserStore :=
  (storeA.updateUser { storedA with isActive := false } 4).2

/-- A user whose stored hash is the bcrypt digest of the demo password. -/
def loginUser : User :=
  { id := "c", email := "c@x.com", username := "carol"
    passwordHash := hashPassword cfgDemo "secret1"
    firstName := "C", lastName := "Cp", createdAt := 0, updatedAt := 0
    isActive := false }

/-- Store holding `loginUser` (created at time 1, hence active). -/
def loginStore : MemoryUserStore := (MemoryUserStore.empty.createUser loginUser 1).2

/-- Witness for C6: unknown email, deactivated account, and wrong password
each yield `InvalidCredentials`. -/
theorem login_invalid_credentials_uniform_witness :
    login storeA cfgDemo { email := "nope", password := "x" } 5 =
      some (.error .invalidCredentials)
    ∧ login inactiveStore cfgDemo { email := "e1", password := "x" } 5 =
      some (.error .invalidCredentials)
    ∧ login loginStore cfgDemo { email := "c@x.com", password := "wrong" } 5 =
      some (.error .invalidCredentials) :=
  ⟨(login_invalid_credentials_uniform storeA cfgDemo
      { email := "nope", password := "x" } 5).1 (by decide),
    (login_invalid_credentials_uniform inactiveStore cfgDemo
      { email := "e1", password := "x" } 5).2.1
      { storedA with isActive := false, updatedAt := 4 } (by decide) (by decide),
    (login_invalid_credentials_uniform loginStore cfgDemo
      { email := "c@x.com", password := "wrong" } 5).2.2
      { loginUser with createdAt := 1, updatedAt := 1, isActive := true }
      (by decide) (by decide) (by decide)⟩

/-- Claim C7: a token that parses successfully (HMAC method, matching
secret, unexpired, past not-before) whose subject is absent from the store
or present but inactive is rejected with `InvalidToken`; the verdict is
a function of the store entry fetched at validation time, not of the
claims alone. -/
theorem validate_revoked_token (s : MemoryUserStore) (cfg : AuthConfig)
    (tok : SignedToken) (now : Nat)
    (hm : tok.method = .hmac256)
    (hs : tok.signedWith = cfg.jwtSecret)
    (hexp : now < tok.claims.expiresAt)
    (hnbf : tok.claims.notBefore ≤ now) :
    (mapLookup s.users tok.claims.userID = none →
      validateToken s cfg tok now = .error .invalidToken)
    ∧ (∀ u, mapLookup s.users tok.claims.userID = some u → u.isActive = false →
      validateToken s cfg tok now = .error .invalidToken) := by
  have hparse : parseWithClaims tok cfg.jwtSecret now = some tok.claims := by
    unfold parseWithClaims
    simp [hm, SigningMethod.isHMAC, hs, hexp, Nat.not_lt.mpr hnbf]
  constructor
  · intro h
    unfold validateToken
    rw [hparse]
    simp [Nat.lt_asymm hexp, MemoryUserStore.getUserByID, h]
  · intro u h hact
    unfold validateToken
    rw [hparse]
    simp [Nat.lt_asymm hexp, MemoryUserStore.getUserByID, h, hact]

/-- The token issued for `userA` at time 0 under the demo configuration. -/
def tokenForA : SignedToken := (generateToken cfgDemo userA 0).1

/-- Witness for C7: the unexpired token for `a` is rejected on the empty
store (subject deleted) and on the store where `a` was deactivated. -/
theorem validate_revoked_token_witness :
    validateToken MemoryUserStore.empty cfgDemo tokenForA 1 = .error .invalidToken
    ∧ validateToken inactiveStore cfgDemo tokenForA 1 = .error .invalidToken :=
  ⟨(validate_revoked_token MemoryUserStore.empty cfgDemo tokenForA 1
      (by decide) (by decide) (by decide) (by decide)).1 (by decide),
    (validate_revoked_token inactiveStore cfgDemo tokenForA 1
      (by decide) (by decide) (by decide) (by decide)).2
      { storedA with isActive := false, updatedAt := 4 } (by decide) (by decide)⟩

/-- Claim C8: for an active user present in the store, a token issued by
`generateToken` at time t0 and validated at any time t in [t0, t0 +
duration) succeeds and returns exactly the public-safe view of the stored
user (identifier, email, username, names, created timestamp; `UserInfo`
carries no password field). -/
theorem issued_token_validates (s : MemoryUserStore) (cfg : AuthConfig) (u : User)
    (t0 t : Nat)
    (hu : mapLookup s.users u.id = some u)
    (hact : u.isActive = true)
    (h0 : t0 ≤ t)
    (ht : t < t0 + cfg.tokenDuration) :
    validateToken s cfg (generateToken cfg u t0).1 t = .ok (userToUserInfo u) := by
  unfold validateToken generateToken parseWithClaims
  simp [SigningMethod.isHMAC, ht, Nat.not_lt.mpr h0, Nat.lt_asymm ht,
    MemoryUserStore.getUserByID, hu, hact]

/-- Witness for C8: a token issued for the stored record `a` at time 2
validates at time 5 to its public view. -/
theorem issued_token_validates_witness :
    validateToken storeA cfgDemo (generateToken cfgDemo storedA 2).1 5 =
      .ok (userToUserInfo storedA) :=
  issued_token_validates storeA cfgDemo storedA 2 5
    (by decide) (by decide) (by decide) (by decide)

/-- Lookup of the updated record after the username tail of `updateUser`
succeeds: the stored value is the caller-supplied record with only the
updated timestamp bumped. -/
theorem updateUserFromUsername_ok_lookup (s : MemoryUserStore) (existing u : User)
    (now : Nat) (s2 : MemoryUserStore)
    (h : s.updateUserFromUsername existing u now = (.ok (), s2)) :
    mapLookup s2.users u.id = some { u with updatedAt := now } := by
  unfold MemoryUserStore.updateUserFromUsername at h
  split_ifs at h with h1 h2
  · injection h with hfst hsnd
    subst hsnd
    exact mapLookup_insert_self ..
  · simp at h
  · injection h with hfst hsnd
    subst hsnd
    exact mapLookup_insert_self ..

/-- Claim C9 as amended: `createUser` stamps both timestamps to the
current time regardless of the caller-supplied values, but a successful
`updateUser` stores the caller-supplied record with only the updated
timestamp bumped — in particular the stored created timestamp becomes the
caller-supplied one, preserved only if the caller passes the stored value
back. -/
theorem store_stamps_timestamps (s : MemoryUserStore) (u : User) (now : Nat) :
    (∀ s2, s.createUser u now = (.ok (), s2) →
      mapLookup s2.users u.id =
        some { u with createdAt := now, updatedAt := now, isActive := true })
    ∧ (∀ s2, s.updateUser u now = (.ok (), s2) →
      mapLookup s2.users u.id = some { u with updatedAt := now }) := by
  constructor
  · intro s2 h
    unfold MemoryUserStore.createUser at h
    split_ifs at h
    · simp at h
    · simp at h
    · simp at h
    · injection h with hfst hsnd
      subst hsnd
      exact mapLookup_insert_self ..
  · intro s2 h
    unfold MemoryUserStore.updateUser at h
    cases hex : mapLookup s.users u.id with
    | none => rw [hex] at h; simp at h
    | some existing =>
      rw [hex] at h
      dsimp only at h
      by_cases he : u.email = existing.email
      · rw [if_pos he] at h
        exact updateUserFromUsername_ok_lookup _ _ _ _ _ h
      · rw [if_neg he] at h
        by_cases hc : (mapLookup s.emailIdx u.email).isSome
        · rw [if_pos hc] at h; simp at h
        · rw [if_neg hc] at h
          exact updateUserFromUsername_ok_lookup _ _ _ _ _ h

/-- Witness for C9 as amended: a create at time 3 stamps both timestamps
to 3, and an update at time 7 passing created timestamp 42 stores created
timestamp 42 with updated timestamp 7. -/
theorem store_stamps_timestamps_witness :
    mapLookup (MemoryUserStore.empty.createUser userB 3).2.users userB.id =
      some { userB with createdAt := 3, updatedAt := 3, isActive := true }
    ∧ mapLookup ((storeA.updateUser { storedA with createdAt := 42 } 7).2).users "a" =
      some { storedA with createdAt := 42, updatedAt := 7 } :=
  ⟨(store_stamps_timestamps MemoryUserStore.empty userB 3).1
      (MemoryUserStore.empty.createUser userB 3).2 (by decide),
    (store_stamps_timestamps storeA { storedA with createdAt := 42 } 7).2
      ((storeA.updateUser { storedA with createdAt := 42 } 7).2) (by decide)⟩

/-- Claim C3 as amended: a successful `register` returns a view that
agrees with the stored record on identifier, email, username, and names,
and `userToUserInfo` discards the password hash entirely; the created
timestamp of the returned view, however, is the zero instant of the local
record, while the stored record carries the stamped current time. -/
theorem register_success_view (store : MemoryUserStore) (cfg : AuthConfig)
    (req : RegisterRequest) (genID : String) (now : Nat)
    (he : store.getUserByEmail req.email = some (.error .userNotFound))
    (hn : store.getUserByUsername req.username = some (.error .userNotFound))
    (hid : mapLookup store.users genID = none) :
    ∃ resp store2, register store cfg req genID now = some (.ok resp, store2)
      ∧ ∃ stored, mapLookup store2.users genID = some stored
        ∧ resp.user.id = stored.id
        ∧ resp.user.email = stored.email
        ∧ resp.user.username = stored.username
        ∧ resp.user.firstName = stored.firstName
        ∧ resp.user.lastName = stored.lastName
        ∧ resp.user.createdAt = 0
        ∧ stored.createdAt = now
        ∧ ∀ v hpw, userToUserInfo { v with passwordHash := hpw } = userToUserInfo v := by
  have hei : mapLookup store.emailIdx req.email = none :=
    (getUserByEmail_notFound_iff store req.email).mp he
  have hni : mapLookup store.usernameIdx req.username = none :=
    (getUserByUsername_notFound_iff store req.username).mp hn
  unfold register
  rw [he, hn]
  unfold MemoryUserStore.createUser
  simp only [hid, hei, hni, Option.isSome_none, Bool.false_eq_true, if_false]
  refine ⟨_, _, rfl, _, mapLookup_insert_self .., rfl, rfl, rfl, rfl, rfl, rfl, rfl,
    fun v hpw => rfl⟩

/-- Witness for C3 as amended, registering on the empty store at time 5. -/
theorem register_success_view_witness :
    ∃ resp store2,
      register MemoryUserStore.empty cfgDemo regReqDemo "id1" 5 = some (.ok resp, store2)
      ∧ ∃ stored, mapLookup store2.users "id1" = some stored
        ∧ resp.user.id = stored.id
        ∧ resp.user.email = stored.email
        ∧ resp.user.username = stored.username
        ∧ resp.user.firstName = stored.firstName
        ∧ resp.user.lastName = stored.lastName
        ∧ resp.user.createdAt = 0
        ∧ stored.createdAt = 5
        ∧ ∀ v hpw, userToUserInfo { v with passwordHash := hpw } = userToUserInfo v :=
  register_success_view MemoryUserStore.empty cfgDemo regReqDemo "id1" 5
    (by decide) (by decide) (by decide)

end LoginApp
